import Mathlib

/-!
# SmartBoot — verification of the boot-media-creation pipeline

Shallow embedding of the core pipeline of the `smartboot` repository:

* `src/core/boot_sector/manager.py` — `BootSectorManager.write_boot_sector`
* `src/core/boot_sector/linux.py`   — `LinuxBootSector.write_bios_boot` and helpers
* `src/core/boot_sector/base.py`    — `BaseBootSector._find_or_create_mbr`
* `src/core/disk_formatter.py`      — `DiskFormatter.format_disk` and the three
  per-platform formatting routines
* `src/core/image_writer.py`        — `ImageWriter._detect_iso_type`,
  `ImageWriter.write_disk_image`, `ImageWriter.write_iso`
* `src/worker.py`                   — `USBWorker.run` / `create_linux_bootable`

External effects (subprocess invocations, filesystem probes, the privilege
check, the progress callback) are modelled by environment records whose fields
give the outcome of each call site; outcomes are `Except PyExc _` values so a
call site can either return or raise, exactly as in Python.  Every modelled
function returns the ordered trace of the events it performed together with
its Python return value (or the exception it propagates).
-/

/-- A Python exception, as far as the embedded code can observe it:
`subprocess.CalledProcessError` carries a `stderr` payload (used by the
`except subprocess.CalledProcessError` handlers) and a `str(e)` rendering;
other exceptions only carry their `str(e)` rendering. -/
inductive PyExc where
  | calledProcessError (stderr : String) (msg : String)
  | valueError (msg : String)
  | osError (msg : String)
  | runtimeError (msg : String)
deriving Repr, DecidableEq

/-- `str(e)` for a modelled Python exception. -/
def PyExc.pyStr : PyExc → String
  | .calledProcessError _ m => m
  | .valueError m => m
  | .osError m => m
  | .runtimeError m => m

/-- `e.stderr if hasattr(e, 'stderr') else str(e)`, the rendering used by
several handlers in the source. -/
def PyExc.stderrOrStr : PyExc → String
  | .calledProcessError s _ => s
  | .valueError m => m
  | .osError m => m
  | .runtimeError m => m

/-- Does a character list start with the given pattern? (helper for
substring containment, i.e. Python's `in` on strings). -/
def charsStartWith : List Char → List Char → Bool
  | _, [] => true
  | [], _ :: _ => false
  | c :: cs, p :: ps => c = p && charsStartWith cs ps

/-- Python's `pat in s` on strings: some suffix of `s` starts with `pat`. -/
def charsContain : List Char → List Char → Bool
  | [], p => p.isEmpty
  | l@(_ :: cs), p => charsStartWith l p || charsContain cs p

/-- Python's substring test `pat in s`. -/
def strContains (s pat : String) : Bool :=
  charsContain s.toList pat.toList

/-- ASCII lower-casing of one character (Python's `str.lower` restricted to
the ASCII strings this code base manipulates). -/
def charLower (c : Char) : Char :=
  match c with
  | 'A' => 'a' | 'B' => 'b' | 'C' => 'c' | 'D' => 'd' | 'E' => 'e' | 'F' => 'f'
  | 'G' => 'g' | 'H' => 'h' | 'I' => 'i' | 'J' => 'j' | 'K' => 'k' | 'L' => 'l'
  | 'M' => 'm' | 'N' => 'n' | 'O' => 'o' | 'P' => 'p' | 'Q' => 'q' | 'R' => 'r'
  | 'S' => 's' | 'T' => 't' | 'U' => 'u' | 'V' => 'v' | 'W' => 'w' | 'X' => 'x'
  | 'Y' => 'y' | 'Z' => 'z'
  | other => other

/-- ASCII upper-casing of one character (Python's `str.upper` restricted to
ASCII). -/
def charUpper (c : Char) : Char :=
  match c with
  | 'a' => 'A' | 'b' => 'B' | 'c' => 'C' | 'd' => 'D' | 'e' => 'E' | 'f' => 'F'
  | 'g' => 'G' | 'h' => 'H' | 'i' => 'I' | 'j' => 'J' | 'k' => 'K' | 'l' => 'L'
  | 'm' => 'M' | 'n' => 'N' | 'o' => 'O' | 'p' => 'P' | 'q' => 'Q' | 'r' => 'R'
  | 's' => 'S' | 't' => 'T' | 'u' => 'U' | 'v' => 'V' | 'w' => 'W' | 'x' => 'X'
  | 'y' => 'Y' | 'z' => 'Z'
  | other => other

/-- Python's `str.lower()`. -/
def String.pyLower (s : String) : String :=
  ⟨s.data.map charLower⟩

/-- Python's `str.upper()`. -/
def String.pyUpper (s : String) : String :=
  ⟨s.data.map charUpper⟩

/-- Python's `str.startswith`. -/
def String.pyStartsWith (s pat : String) : Bool :=
  charsStartWith s.data pat.data

/-- Python's `str.endswith`. -/
def String.pyEndsWith (s pat : String) : Bool :=
  charsStartWith s.data.reverse pat.data.reverse

/-- Python's `len` on strings. -/
def String.pyLen (s : String) : Nat :=
  s.data.length

/-- Python's slice `s[:n]`. -/
def String.pyTake (s : String) (n : Nat) : String :=
  ⟨s.data.take n⟩

/-- Python's `str.strip()`. -/
def String.pyStrip (s : String) : String :=
  ⟨((s.data.dropWhile Char.isWhitespace).reverse.dropWhile Char.isWhitespace).reverse⟩

/-- The suffix of `s` after the last occurrence of the (non-empty) pattern —
Python's `s.split(pat)[-1]`; when the pattern does not occur, the whole
string. -/
def afterLastSub : List Char → List Char → List Char
  | [], _ => []
  | s@(_ :: rest), pat =>
    if charsContain rest pat then afterLastSub rest pat
    else if charsStartWith s pat then s.drop pat.length
    else afterLastSub rest pat

/-- Python's `s.split(pat)[-1]` for a non-empty pattern. -/
def pySplitLast (s pat : String) : String :=
  if strContains s pat then ⟨afterLastSub s.data pat.data⟩ else s

/-- `str.splitlines`-style split on the newline character (sufficient for the
`splitlines()` calls in this code base). -/
def splitNl : List Char → List (List Char)
  | [] => [[]]
  | c :: rest =>
    let r := splitNl rest
    if c = '\n' then [] :: r
    else (c :: r.headD []) :: r.tail

/-- Python's `str.splitlines()` (newline-only). -/
def pyLines (s : String) : List String :=
  (splitNl s.data).map String.mk

/-- `os.path.basename` for POSIX-style paths: the component after the last
separator. -/
def pyBasename (s : String) : String :=
  ⟨(s.data.reverse.takeWhile (fun c => c ≠ '/')).reverse⟩

/-- A device record (`Dict[str, Any]` in the source).  `errorField = none`
models a dict without the key `'error'`; `errorField = some s` models the key
being present with value `s` (possibly the empty string) — `'error' in device`
tests key presence only. -/
structure Device where
  name : Option String := none
  number : Option Int := none
  driveLetter : Option String := none
  errorField : Option String := none
deriving Repr, DecidableEq

/-- Boot options (`Dict[str, Any]`); `none` models an absent key, so
`options.get('boot_type', 'bios')` is `(boot_type.getD "bios")`. -/
structure BootOptions where
  boot_type : Option String := none
  iso_type : Option String := none
  partition_scheme : Option String := none
deriving Repr, DecidableEq

/-! ## BootSectorManager (`src/core/boot_sector/manager.py`) -/

/-- One call into the platform implementation `self._impl`, as performed by
`BootSectorManager.write_boot_sector`. -/
inductive BootCall where
  | checkAdmin
  | bios
  | uefi
  | freedos
deriving Repr, DecidableEq

/-- Outcomes of the platform implementation's methods for one run of
`write_boot_sector`.  Each field is the result of the corresponding
`self._impl.<method>` call: `.ok b` models a normal boolean return, `.error e`
models the call raising. -/
structure BootEnv where
  check_admin_privileges : Except PyExc Bool := .ok true
  write_bios_boot : Except PyExc Bool := .ok true
  write_uefi_boot : Except PyExc Bool := .ok true
  write_freedos_boot : Except PyExc Bool := .ok true

/-- The body of `BootSectorManager.write_boot_sector` (manager.py lines
65-95), i.e. the contents of its top-level `try:` block.  Returns the trace of
implementation calls and either the returned boolean or the exception that
escapes the body. -/
def write_boot_sector_body (env : BootEnv) (device : Device) (options : BootOptions) :
    List BootCall × Except PyExc Bool :=
  match device.errorField with
  | some _ => ([], .ok false)
  | none =>
    match env.check_admin_privileges with
    | .error e => ([.checkAdmin], .error e)
    | .ok admin =>
      if admin = false then ([.checkAdmin], .ok false)
      else
        let boot_type := (options.boot_type.getD "bios").pyLower
        if boot_type = "freedos" then
          ([.checkAdmin, .freedos], env.write_freedos_boot)
        else if boot_type = "uefi" then
          ([.checkAdmin, .uefi], env.write_uefi_boot)
        else if boot_type = "dual" then
          match env.write_bios_boot with
          | .error e => ([.checkAdmin, .bios], .error e)
          | .ok bios_success =>
            match env.write_uefi_boot with
            | .error e => ([.checkAdmin, .bios, .uefi], .error e)
            | .ok uefi_success =>
              ([.checkAdmin, .bios, .uefi], .ok (bios_success || uefi_success))
        else
          ([.checkAdmin, .bios], env.write_bios_boot)

/-- `BootSectorManager.write_boot_sector` (manager.py lines 48-99): the body
wrapped in the `try/except Exception` handler that logs the error and returns
`False`. -/
def write_boot_sector (env : BootEnv) (device : Device) (options : BootOptions) :
    List BootCall × Bool :=
  match write_boot_sector_body env device options with
  | (tr, .ok b) => (tr, b)
  | (tr, .error _) => (tr, false)

/-! ## DiskFormatter (`src/core/disk_formatter.py`) -/

/-- One observable event of a `DiskFormatter` run: a progress update (the
percentage and message passed to `_update_progress`) or one external command
acting on the machine. -/
inductive FmtEv where
  | progress (pct : Int) (msg : String)
  | winAdminCheck
  | clearDisk
  | diskpartClean
  | initDisk (style : String)
  | diskpartConvert (style : String)
  | psCreateFormat (fs : String)
  | diskpartCreateFormat (fs : String)
  | queryDriveLetter
  | linuxUnmount
  | mklabel (lbl : String)
  | mkpart
  | mkfs (tool : String)
  | linuxMount
  | macUnmountDisk
  | eraseDisk (fmt : String) (scheme : String)
deriving Repr, DecidableEq

/-- Events that destructively modify the target device.  Unmounting, mounting
and read-only queries are not destructive. -/
def FmtEv.isDestructive : FmtEv → Bool
  | .clearDisk => true
  | .diskpartClean => true
  | .initDisk _ => true
  | .diskpartConvert _ => true
  | .psCreateFormat _ => true
  | .diskpartCreateFormat _ => true
  | .mklabel _ => true
  | .mkpart => true
  | .mkfs _ => true
  | .eraseDisk _ _ => true
  | _ => false

/-- Outcomes of the external calls a `DiskFormatter.format_disk` run can make,
one field per call site.  `Int` results are subprocess return codes of runs
without `check=True`; `Unit` results model `check=True` runs (or script
writes) whose only observable outcome is success or an exception. -/
structure FmtEnv where
  system : String := "Linux"
  winAdmin : Except PyExc Bool := .ok true
  clearDisk : Except PyExc Int := .ok 0
  diskpartClean : Except PyExc Unit := .ok ()
  initDisk : Except PyExc Int := .ok 0
  diskpartConvert : Except PyExc Unit := .ok ()
  diskpartFormatFat32 : Except PyExc Unit := .ok ()
  newPartitionFormat : Except PyExc Int := .ok 0
  diskpartFormatOther : Except PyExc Unit := .ok ()
  getDriveLetter : Except PyExc String := .ok "E"
  wmicLetter : Option String := none
  scanLetter : Option String := none
  mountOutputHasDevice : Bool := false
  mklabel : Except PyExc Unit := .ok ()
  mkpart : Except PyExc Unit := .ok ()
  part1Exists : Bool := true
  partP1Exists : Bool := false
  mkfs : Except PyExc Unit := .ok ()
  mountPartition : Except PyExc Unit := .ok ()
  mountDir : String := "/tmp/smartboot_mount_0"
  eraseDisk : Except PyExc (Int × String × String) := .ok (0, "", "")

/-- `DiskFormatter._format_windows`, step 4 (lines 243-296): resolve the
assigned drive letter, with the wmic fallback and the removable-letter scan. -/
def format_windows_drive_letter (env : FmtEnv) (tr : List FmtEv) :
    List FmtEv × (Bool × String) :=
  let tr := tr ++ [FmtEv.queryDriveLetter]
  match env.getDriveLetter with
  | .error e =>
    (tr ++ [.progress 0 ("Error getting drive letter: " ++ e.pyStr)], (false, ""))
  | .ok s =>
    let d1 := if s = "" then (env.wmicLetter.getD "") else s
    let drive_letter := if d1 = "" then (env.scanLetter.getD "") else d1
    if drive_letter = "" then
      (tr ++ [.progress 0 "Error: Could not determine drive letter"], (false, ""))
    else
      (tr ++ [.progress 100 ("Disk formatted successfully, assigned to " ++ drive_letter ++ ":")],
       (true, drive_letter))

/-- `DiskFormatter._format_windows`, step 3 (lines 184-241): create and format
the primary partition — diskpart for FAT32, otherwise PowerShell with a
diskpart fallback. -/
def format_windows_partition (env : FmtEnv) (filesystem : String) (tr : List FmtEv) :
    List FmtEv × (Bool × String) :=
  if filesystem.pyUpper = "FAT32" then
    match env.diskpartFormatFat32 with
    | .error e =>
      (tr ++ [.diskpartCreateFormat "fat32",
              .progress 0 ("Error creating/formatting partition: " ++ e.pyStr)], (false, ""))
    | .ok _ =>
      format_windows_drive_letter env
        (tr ++ [.diskpartCreateFormat "fat32", .progress 75 "Partition created and formatted"])
  else
    match env.newPartitionFormat with
    | .error e =>
      (tr ++ [.psCreateFormat filesystem,
              .progress 0 ("Error creating/formatting partition: " ++ e.pyStr)], (false, ""))
    | .ok rc =>
      if rc ≠ 0 then
        match env.diskpartFormatOther with
        | .error e =>
          (tr ++ [.psCreateFormat filesystem, .diskpartCreateFormat filesystem,
                  .progress 0 ("Error creating/formatting partition: " ++ e.pyStr)], (false, ""))
        | .ok _ =>
          format_windows_drive_letter env
            (tr ++ [.psCreateFormat filesystem, .diskpartCreateFormat filesystem,
                    .progress 75 "Partition created and formatted"])
      else
        format_windows_drive_letter env
          (tr ++ [.psCreateFormat filesystem, .progress 75 "Partition created and formatted"])

/-- `DiskFormatter._format_windows`, step 2 (lines 143-182): initialize the
disk with the requested partition style, with a diskpart `convert` fallback. -/
def format_windows_init (env : FmtEnv) (filesystem partition_scheme : String)
    (tr : List FmtEv) : List FmtEv × (Bool × String) :=
  let style := if partition_scheme.pyLower = "mbr" then "MBR" else "GPT"
  match env.initDisk with
  | .error e =>
    (tr ++ [.initDisk style, .progress 0 ("Error initializing disk: " ++ e.pyStr)], (false, ""))
  | .ok rc =>
    if rc ≠ 0 then
      match env.diskpartConvert with
      | .error e =>
        (tr ++ [.initDisk style, .diskpartConvert partition_scheme.pyLower,
                .progress 0 ("Error initializing disk: " ++ e.pyStr)], (false, ""))
      | .ok _ =>
        format_windows_partition env filesystem
          (tr ++ [.initDisk style, .diskpartConvert partition_scheme.pyLower,
                  .progress 25 ("Disk initialized with " ++ partition_scheme ++ " partition scheme")])
    else
      format_windows_partition env filesystem
        (tr ++ [.initDisk style,
                .progress 25 ("Disk initialized with " ++ partition_scheme ++ " partition scheme")])

/-- `DiskFormatter._format_windows` (lines 84-296).  The admin-rights check is
lines 100-107; note its `except Exception: pass`, so a check that raises does
not abort the run. -/
def format_windows (env : FmtEnv) (device : Device) (filesystem partition_scheme : String) :
    List FmtEv × (Bool × String) :=
  match device.number with
  | none => ([.progress 0 "Error: Invalid device number"], (false, ""))
  | some disk_number =>
    if disk_number < 0 then ([.progress 0 "Error: Invalid device number"], (false, ""))
    else
      let admin_abort := match env.winAdmin with
        | .ok b => !b
        | .error _ => false
      if admin_abort then
        ([.winAdminCheck, .progress 0 "Error: Administrator privileges required"], (false, ""))
      else
        let trA : List FmtEv := [.winAdminCheck]
        match env.clearDisk with
        | .error e =>
          (trA ++ [.clearDisk, .progress 0 ("Error cleaning disk: " ++ e.pyStr)], (false, ""))
        | .ok rc =>
          if rc ≠ 0 then
            match env.diskpartClean with
            | .error e =>
              (trA ++ [.clearDisk, .diskpartClean,
                       .progress 0 ("Error cleaning disk: " ++ e.pyStr)], (false, ""))
            | .ok _ =>
              format_windows_init env filesystem partition_scheme
                (trA ++ [.clearDisk, .diskpartClean, .progress 15 "Disk cleaned successfully"])
          else
            format_windows_init env filesystem partition_scheme
              (trA ++ [.clearDisk, .progress 15 "Disk cleaned successfully"])

/-- `DiskFormatter._format_linux` (lines 298-453). -/
def format_linux (env : FmtEnv) (device : Device) (filesystem partition_scheme : String)
    (quick_format : Bool) : List FmtEv × (Bool × String) :=
  match device.name with
  | none => ([.progress 0 "Error: Invalid device path"], (false, ""))
  | some nm =>
    if nm = "" then ([.progress 0 "Error: Invalid device path"], (false, ""))
    else
      let device_path := if nm.pyStartsWith "/dev/" then nm else "/dev/" ++ nm
      let tr1 := [FmtEv.progress 5 "Preparing to format device..."]
        ++ (if env.mountOutputHasDevice then [FmtEv.linuxUnmount] else [])
      let lbl := if partition_scheme.pyUpper = "MBR" then "msdos" else "gpt"
      match env.mklabel with
      | .error e =>
        (tr1 ++ [.mklabel lbl,
                 .progress 0 ("Error creating partition table: " ++ e.stderrOrStr)], (false, ""))
      | .ok _ =>
        let tr2 := tr1 ++ [FmtEv.mklabel lbl,
          .progress 20 ("Created " ++ partition_scheme ++ " partition table")]
        match env.mkpart with
        | .error e =>
          (tr2 ++ [.mkpart, .progress 0 ("Error creating partition: " ++ e.stderrOrStr)],
           (false, ""))
        | .ok _ =>
          let tr3 := tr2 ++ [FmtEv.mkpart, .progress 40 "Created partition"]
          match (if env.part1Exists then some (device_path ++ "1")
                 else if env.partP1Exists then some (device_path ++ "p1")
                 else none) with
          | none =>
            (tr3 ++ [.progress 0 ("Error: Partition " ++ device_path ++ "1 not found")],
             (false, ""))
          | some partition =>
            let fsl := filesystem.pyLower
            let tool? : Option String :=
              if fsl = "fat" ∨ fsl = "fat32" ∨ fsl = "vfat" then some "mkfs.vfat"
              else if fsl = "ntfs" then some "mkfs.ntfs"
              else if fsl = "exfat" then some "mkfs.exfat"
              else if fsl.pyStartsWith "ext" then some ("mkfs." ++ fsl)
              else none
            match tool? with
            | none =>
              (tr3 ++ [.progress 0 ("Unsupported filesystem: " ++ filesystem)], (false, ""))
            | some tool =>
              match env.mkfs with
              | .error e =>
                (tr3 ++ [.mkfs tool,
                         .progress 0 ("Error formatting partition: " ++ e.stderrOrStr)],
                 (false, ""))
              | .ok _ =>
                let tr4 := tr3 ++ [FmtEv.mkfs tool,
                  .progress 60 ("Formatted partition with " ++ filesystem)]
                match env.mountPartition with
                | .error e =>
                  (tr4 ++ [.linuxMount,
                           .progress 70 ("Warning: Could not mount partition: " ++ e.stderrOrStr),
                           .progress 100 ("Disk formatted successfully with " ++ filesystem)],
                   (true, partition))
                | .ok _ =>
                  (tr4 ++ [.linuxMount, .progress 80 ("Mounted partition at " ++ env.mountDir),
                           .progress 100 ("Disk formatted successfully with " ++ filesystem)],
                   (true, if env.mountDir = "" then partition else env.mountDir))

/-- The mount-point scan of `_format_macos` (lines 515-519): first line of the
`eraseDisk` output containing both "Volume name" and "mounted at". -/
def macFindMountPoint : List String → String
  | [] => ""
  | line :: rest =>
    if strContains line "Volume name" && strContains line "mounted at" then
      (pySplitLast line "mounted at").pyStrip
    else macFindMountPoint rest

/-- The filesystem-name map of `_format_macos` (lines 486-494): unknown names
silently default to "MS-DOS FAT32". -/
def macFormatMap (filesystem : String) : String :=
  if filesystem = "FAT32" then "MS-DOS FAT32"
  else if filesystem = "ExFAT" then "ExFAT"
  else if filesystem = "NTFS" then "NTFS"
  else if filesystem = "HFS+" then "HFS+"
  else if filesystem = "APFS" then "APFS"
  else "MS-DOS FAT32"

/-- `DiskFormatter._format_macos` (lines 455-528). -/
def format_macos (env : FmtEnv) (device : Device) (filesystem label partition_scheme : String) :
    List FmtEv × (Bool × String) :=
  match device.name with
  | none => ([.progress 0 "Error: Invalid device path"], (false, ""))
  | some nm =>
    if nm = "" then ([.progress 0 "Error: Invalid device path"], (false, ""))
    else
      let tr0 := [FmtEv.progress 5 "Preparing to format device...", FmtEv.macUnmountDisk]
      let diskutil_format := macFormatMap filesystem
      let scheme := if partition_scheme.pyUpper = "MBR" then "MBR" else "GPT"
      match env.eraseDisk with
      | .error e =>
        (tr0 ++ [.eraseDisk diskutil_format scheme,
                 .progress 0 ("Error formatting disk: " ++ e.stderrOrStr)], (false, ""))
      | .ok (rc, stdout, stderr) =>
        if rc ≠ 0 then
          (tr0 ++ [.eraseDisk diskutil_format scheme,
                   .progress 0 ("Error formatting disk: " ++ stderr)], (false, ""))
        else
          let mount_point := macFindMountPoint (pyLines stdout)
          (tr0 ++ [.eraseDisk diskutil_format scheme,
                   .progress 100 ("Disk formatted successfully with " ++ filesystem)],
           (true, if mount_point = "" then "/Volumes/" ++ label else mount_point))

/-- `DiskFormatter.format_disk` (lines 47-82): the `'error' in device`
short-circuit, then dispatch on the host platform.  The platform routines
convert every tool failure into a `(False, "")` return themselves, so the
surrounding `try/except` only guards unexpected faults. -/
def format_disk (env : FmtEnv) (device : Device) (filesystem label partition_scheme : String)
    (quick_format : Bool) : List FmtEv × (Bool × String) :=
  match device.errorField with
  | some err => ([.progress 0 ("Error: " ++ err)], (false, ""))
  | none =>
    if env.system = "Windows" then
      format_windows env device filesystem partition_scheme
    else if env.system = "Linux" then
      format_linux env device filesystem partition_scheme quick_format
    else if env.system = "Darwin" then
      format_macos env device filesystem label partition_scheme
    else
      ([.progress 0 ("Unsupported OS: " ++ env.system)], (false, ""))

/-! ## ImageWriter (`src/core/image_writer.py`) -/

/-- Result of the content-inspection block of `_detect_iso_type` (lines
172-210, Windows only): whether the mounted ISO carries Windows markers
(`sources/install.wim|.esd`), Linux markers (`casper`/`isolinux`/`live`) or
DOS markers (`kernel.sys`/`command.com`). -/
structure ContentMarkers where
  win : Bool
  linux : Bool
  dos : Bool
deriving Repr, DecidableEq

/-- The filename keyword lists of `_detect_iso_type` (lines 160-170). -/
def winTerms : List String := ["windows", "win", "microsoft", "server"]

def linuxDistros : List String :=
  ["ubuntu", "debian", "fedora", "centos", "rhel", "suse", "arch", "manjaro", "linux", "mint"]

def dosTerms : List String := ["freedos", "msdos", "dos"]

/-- `ImageWriter._detect_iso_type` (lines 139-213).  `system` is the host
platform; `probe = none` models the Windows mount-and-inspect block raising
(swallowed by its `except Exception: pass`), `probe = some m` models the
markers it observed.  On non-Windows hosts the content block is not executed
at all and the fallback is "generic". -/
def detect_iso_type (system : String) (iso_path : String) (probe : Option ContentMarkers) :
    String :=
  let filename := (pyBasename iso_path).pyLower
  if winTerms.any (fun t => strContains filename t) then "windows"
  else if linuxDistros.any (fun t => strContains filename t) then "linux"
  else if dosTerms.any (fun t => strContains filename t) then "freedos"
  else if system = "Windows" then
    match probe with
    | none => "generic"
    | some m =>
      if m.win then "windows"
      else if m.linux then "linux"
      else if m.dos then "freedos"
      else "generic"
  else "generic"

/-- One observable event of an `ImageWriter` run. -/
inductive ImgEv where
  | progress (pct : Int) (msg : String)
  | ddPipe (tool : String)
  | ddWrite
  | psRawWrite
  | sync
  | mountIso
  | dismountIso
  | robocopy
  | bootsectRun
  | extract7z
  | xcopyExtract
  | sudoMountIso
  | cpExtract
  | umountIso
  | copyToTarget
  | sysComRun
deriving Repr, DecidableEq

/-- Events of an `ImageWriter` run that write to the target device. -/
def ImgEv.writesDevice : ImgEv → Bool
  | .ddPipe _ => true
  | .ddWrite => true
  | .psRawWrite => true
  | .robocopy => true
  | .bootsectRun => true
  | .copyToTarget => true
  | .sysComRun => true
  | _ => false

/-- Outcomes of the external calls an `ImageWriter` run can make, one field
per call site. -/
structure ImgEnv where
  system : String := "Linux"
  imageExists : Bool := true
  targetExists : Bool := true
  probe : Option ContentMarkers := none
  -- raw image write (`_write_image_windows` / `_write_image_unix`)
  ddAvail : Bool := true
  winPipe : Except PyExc Unit := .ok ()
  winDdDirect : Except PyExc Unit := .ok ()
  winAdmin : Except PyExc Bool := .ok true
  psWrite : Except PyExc Unit := .ok ()
  unixPipe : Except PyExc Unit := .ok ()
  unixDd : Except PyExc Unit := .ok ()
  sync : Except PyExc Unit := .ok ()
  -- `_write_image_direct` drive-letter-to-physical-drive resolution
  physicalDriveNumber : Except PyExc String := .ok "1"
  -- `_write_linux_iso` mount-point-to-device resolution
  targetIsDir : Bool := false
  mountLookup : Option String := none
  -- `_write_windows_iso`
  mountLetter : Except PyExc String := .ok "F"
  isoDriveExists : Bool := true
  bootsectFound : Bool := false
  bootsectRun : Except PyExc Unit := .ok ()
  dismount : Except PyExc Unit := .ok ()
  -- `_write_dos_iso` / `_write_generic_iso`
  sevenZipAvail : Bool := true
  extract7z : Except PyExc Unit := .ok ()
  extractMount : Except PyExc Unit := .ok ()
  extractCopy : Except PyExc Unit := .ok ()
  copyToTarget : Except PyExc Unit := .ok ()
  sysComFound : Bool := false
  sysComRun : Except PyExc Unit := .ok ()

/-- `ImageWriter._write_image_windows` (lines 660-830): dd with on-the-fly
decompression when available, otherwise an admin check and a PowerShell raw
chunked write.  The PowerShell fallback never consults `is_compressed`. -/
def write_image_windows (env : ImgEnv) (image_path : String) (is_compressed : Bool) :
    List ImgEv × Bool :=
  let tr0 := [ImgEv.progress 20 "Writing image to device..."]
  if env.ddAvail then
    if is_compressed then
      let lower := image_path.pyLower
      let tool? : Option String :=
        if lower.pyEndsWith ".gz" then some "gzip"
        else if lower.pyEndsWith ".xz" then some "xz"
        else if lower.pyEndsWith ".bz2" then some "bzip2"
        else none
      match tool? with
      | none =>
        (tr0 ++ [.progress 0 ("Error: Unsupported compression format: " ++ image_path)], false)
      | some tool =>
        match env.winPipe with
        | .ok _ => (tr0 ++ [.ddPipe tool, .progress 100 "Image written successfully"], true)
        | .error e =>
          (tr0 ++ [.ddPipe tool, .progress 0 ("Error writing image: " ++ e.stderrOrStr)], false)
    else
      match env.winDdDirect with
      | .ok _ => (tr0 ++ [.ddWrite, .progress 100 "Image written successfully"], true)
      | .error e =>
        (tr0 ++ [.ddWrite, .progress 0 ("Error writing image: " ++ e.stderrOrStr)], false)
  else
    let is_admin := match env.winAdmin with
      | .ok b => b
      | .error _ => false
    if is_admin = false then
      (tr0 ++ [.progress 0 "Error: This operation requires Administrator privileges. Please run SmartBoot as Administrator."],
       false)
    else
      match env.psWrite with
      | .ok _ => (tr0 ++ [.psRawWrite, .progress 100 "Image written successfully"], true)
      | .error e =>
        (tr0 ++ [.psRawWrite, .progress 0 ("Error writing image (PowerShell): " ++ e.pyStr)],
         false)

/-- `ImageWriter._write_image_unix` (lines 832-886). -/
def write_image_unix (env : ImgEnv) (image_path : String) (is_compressed : Bool) :
    List ImgEv × Bool :=
  let tr0 := [ImgEv.progress 20 "Writing image to device..."]
  if is_compressed then
    let lower := image_path.pyLower
    let tool? : Option String :=
      if lower.pyEndsWith ".gz" then some "gzip"
      else if lower.pyEndsWith ".xz" then some "xz"
      else if lower.pyEndsWith ".bz2" then some "bzip2"
      else none
    match tool? with
    | none =>
      (tr0 ++ [.progress 0 ("Error: Unsupported compression format: " ++ image_path)], false)
    | some tool =>
      match env.unixPipe with
      | .error e =>
        (tr0 ++ [.ddPipe tool, .progress 0 ("Error writing image: " ++ e.stderrOrStr)], false)
      | .ok _ =>
        match env.sync with
        | .error e =>
          (tr0 ++ [.ddPipe tool, .sync,
                   .progress 0 ("Error writing image: " ++ e.stderrOrStr)], false)
        | .ok _ =>
          (tr0 ++ [.ddPipe tool, .sync, .progress 100 "Image written successfully"], true)
  else
    match env.unixDd with
    | .error e =>
      (tr0 ++ [.ddWrite, .progress 0 ("Error writing image: " ++ e.stderrOrStr)], false)
    | .ok _ =>
      match env.sync with
      | .error e =>
        (tr0 ++ [.ddWrite, .sync, .progress 0 ("Error writing image: " ++ e.stderrOrStr)], false)
      | .ok _ =>
        (tr0 ++ [.ddWrite, .sync, .progress 100 "Image written successfully"], true)

/-- `ImageWriter.write_disk_image` (lines 105-137): existence check,
compression classification by extension (`.gz`/`.xz`/`.bz2`/`.zip`), then the
platform raw-write routine. -/
def write_disk_image (env : ImgEnv) (image_path : String) : List ImgEv × Bool :=
  if env.imageExists = false then
    ([.progress 0 ("Error: Image file not found: " ++ image_path)], false)
  else
    let lower := image_path.pyLower
    let is_compressed :=
      lower.pyEndsWith ".gz" || lower.pyEndsWith ".xz" || lower.pyEndsWith ".bz2" ||
        lower.pyEndsWith ".zip"
    if env.system = "Windows" then
      write_image_windows env image_path is_compressed
    else
      write_image_unix env image_path is_compressed

/-- Python's `str.isdigit()` (non-empty, all digits), as used on the resolved
disk number in `_write_image_direct`. -/
def pyIsdigit (s : String) : Bool :=
  s ≠ "" && s.toList.all Char.isDigit

/-- `ImageWriter._write_image_direct` (lines 591-658): on Windows resolve a
drive letter to its physical drive, then delegate to the platform raw write
with `is_compressed = False`. -/
def write_image_direct (env : ImgEnv) (image_path target_drive : String) :
    List ImgEv × Bool :=
  let tr0 := [ImgEv.progress 15 "Preparing for direct image write..."]
  if env.system = "Windows" then
    if target_drive.pyLen = 1 ∨ (target_drive.pyLen = 2 ∧ target_drive.pyEndsWith ":")
        ∨ target_drive.pyEndsWith ":\\" then
      let letter := target_drive.pyTake 1
      match env.physicalDriveNumber with
      | .error e =>
        (tr0 ++ [.progress 0 ("Error finding physical drive: " ++ e.pyStr)], false)
      | .ok disk_number =>
        if pyIsdigit disk_number then
          let (tr, b) := write_image_windows env image_path false
          (tr0 ++ tr, b)
        else
          (tr0 ++ [.progress 0 ("Error: Could not find physical drive for " ++ letter ++ ":")],
           false)
    else
      let (tr, b) := write_image_windows env image_path false
      (tr0 ++ tr, b)
  else
    let (tr, b) := write_image_unix env image_path false
    (tr0 ++ tr, b)

/-- `ImageWriter._write_windows_iso` (lines 215-323): mount the ISO, robocopy
its tree, best-effort `bootsect.exe`, and always dismount (a dismount failure
in the `finally` supersedes the pending return and lands in the outer
handler). -/
def write_windows_iso (env : ImgEnv) : List ImgEv × Bool :=
  let tr0 := [ImgEv.progress 15 "Preparing to write Windows ISO..."]
  match env.mountLetter with
  | .error e =>
    (tr0 ++ [.mountIso, .progress 0 ("Error writing Windows ISO: " ++ e.pyStr)], false)
  | .ok letter =>
    let iso_drive := letter ++ ":\\"
    let tr1 := tr0 ++ [ImgEv.mountIso]
    if env.isoDriveExists = false then
      (tr1 ++ [.progress 0 ("Error: Could not mount ISO at " ++ iso_drive)], false)
    else
      let trBody : List ImgEv :=
        [.progress 20 ("ISO mounted at " ++ iso_drive),
         .progress 25 "Copying Windows files to USB...", .robocopy,
         .progress 80 "Files copied successfully", .progress 85 "Making USB bootable..."]
      let step : List ImgEv × Except PyExc Bool :=
        if env.bootsectFound then
          match env.bootsectRun with
          | .ok _ =>
            (trBody ++ [.bootsectRun, .progress 95 "Made USB bootable with bootsect.exe",
                        .progress 100 "Windows ISO written successfully"], .ok true)
          | .error (.calledProcessError st _) =>
            (trBody ++ [.bootsectRun,
                        .progress 90 ("Warning: bootsect.exe failed, USB may not be bootable. Try running as administrator. Error: " ++ st),
                        .progress 100 "Windows ISO written successfully"], .ok true)
          | .error e => (trBody ++ [.bootsectRun], .error e)
        else
          (trBody ++ [.progress 90 "Warning: bootsect.exe not found in ISO, BOOTSECT_PATH, or C:\\tools\\bootsect.exe. USB may not be bootable.",
                      .progress 100 "Windows ISO written successfully"], .ok true)
      let trF := tr1 ++ step.1 ++ [ImgEv.dismountIso]
      match env.dismount with
      | .error e =>
        (trF ++ [.progress 0 ("Error writing Windows ISO: " ++ e.pyStr)], false)
      | .ok _ =>
        match step.2 with
        | .ok b => (trF, b)
        | .error e =>
          (trF ++ [.progress 0 ("Error writing Windows ISO: " ++ e.pyStr)], false)

/-- The extraction step shared by `_write_dos_iso` and `_write_generic_iso`
(7-Zip when available, else mount-and-copy): the trace of the attempt and
either success or the exception reaching the writer's outer handler. -/
def extract_iso_step (env : ImgEnv) : List ImgEv × Except PyExc Unit :=
  if env.system = "Windows" then
    if env.sevenZipAvail then
      match env.extract7z with
      | .ok _ => ([.extract7z], .ok ())
      | .error e => ([.extract7z], .error e)
    else
      match env.mountLetter with
      | .error e => ([.mountIso], .error e)
      | .ok _ =>
        let step : List ImgEv × Except PyExc Unit :=
          match env.extractCopy with
          | .ok _ => ([.mountIso, .xcopyExtract], .ok ())
          | .error e => ([.mountIso, .xcopyExtract], .error e)
        match env.dismount with
        | .error e => (step.1 ++ [.dismountIso], .error e)
        | .ok _ => (step.1 ++ [.dismountIso], step.2)
  else
    if env.sevenZipAvail then
      match env.extract7z with
      | .ok _ => ([.extract7z], .ok ())
      | .error e => ([.extract7z], .error e)
    else
      match env.extractMount with
      | .error e => ([.sudoMountIso, .umountIso], .error e)
      | .ok _ =>
        let step : List ImgEv × Except PyExc Unit :=
          match env.extractCopy with
          | .ok _ => ([.sudoMountIso, .cpExtract], .ok ())
          | .error e => ([.sudoMountIso, .cpExtract], .error e)
        (step.1 ++ [.umountIso], step.2)

/-- `ImageWriter._write_dos_iso` (lines 365-489): extract, copy to the target,
best-effort `sys.com`, with the outer handler converting any raise into a
`False` return. -/
def write_dos_iso (env : ImgEnv) : List ImgEv × Bool :=
  let tr0 := [ImgEv.progress 15 "Preparing to write DOS ISO...",
              ImgEv.progress 20 "Extracting DOS ISO..."]
  let ext := extract_iso_step env
  match ext.2 with
  | .error e =>
    (tr0 ++ ext.1 ++ [.progress 0 ("Error writing DOS ISO: " ++ e.pyStr)], false)
  | .ok _ =>
    let tr1 := tr0 ++ ext.1 ++ [ImgEv.progress 50 "DOS files extracted",
      ImgEv.progress 60 "Copying DOS files to USB..."]
    match env.copyToTarget with
    | .error e =>
      (tr1 ++ [.copyToTarget, .progress 0 ("Error writing DOS ISO: " ++ e.pyStr)], false)
    | .ok _ =>
      let tr2 := tr1 ++ [ImgEv.copyToTarget, ImgEv.progress 90 "DOS files copied to USB",
        ImgEv.progress 95 "Making USB bootable..."]
      if env.sysComFound ∧ env.system = "Windows" then
        match env.sysComRun with
        | .ok _ =>
          (tr2 ++ [.sysComRun, .progress 98 "Made USB bootable with sys.com",
                   .progress 100 "DOS ISO written successfully"], true)
        | .error (.calledProcessError _ _) =>
          (tr2 ++ [.sysComRun, .progress 95 "Warning: sys.com failed, USB may not be bootable",
                   .progress 100 "DOS ISO written successfully"], true)
        | .error e =>
          (tr2 ++ [.sysComRun, .progress 0 ("Error writing DOS ISO: " ++ e.pyStr)], false)
      else
        (tr2 ++ [.progress 95 "Warning: sys.com not found, USB may not be bootable",
                 .progress 100 "DOS ISO written successfully"], true)

/-- `ImageWriter._write_generic_iso` (lines 491-589): extract and copy to the
target, with the outer handler converting any raise into a `False` return. -/
def write_generic_iso (env : ImgEnv) : List ImgEv × Bool :=
  let tr0 := [ImgEv.progress 15 "Preparing to write generic ISO...",
              ImgEv.progress 20 "Extracting ISO..."]
  let ext := extract_iso_step env
  match ext.2 with
  | .error e =>
    (tr0 ++ ext.1 ++ [.progress 0 ("Error writing generic ISO: " ++ e.pyStr)], false)
  | .ok _ =>
    let tr1 := tr0 ++ ext.1 ++ [ImgEv.progress 50 "ISO files extracted",
      ImgEv.progress 60 "Copying files to USB..."]
    match env.copyToTarget with
    | .error e =>
      (tr1 ++ [.copyToTarget, .progress 0 ("Error writing generic ISO: " ++ e.pyStr)], false)
    | .ok _ =>
      (tr1 ++ [ImgEv.copyToTarget, ImgEv.progress 100 "ISO written successfully"], true)

/-- `ImageWriter._write_linux_iso` (lines 325-363): direct write on Windows;
on Linux/macOS resolve a mount point back to its device and raw-write with
`is_compressed = False`. -/
def write_linux_iso (env : ImgEnv) (iso_path target_drive : String) : List ImgEv × Bool :=
  let tr0 := [ImgEv.progress 15 "Preparing to write Linux ISO..."]
  if env.system = "Windows" then
    let (tr, b) := write_image_direct env iso_path target_drive
    (tr0 ++ tr, b)
  else
    let _device_path :=
      if env.targetIsDir then (env.mountLookup.getD target_drive) else target_drive
    let (tr, b) := write_image_unix env iso_path false
    (tr0 ++ tr, b)

/-- `ImageWriter.write_iso` (lines 38-103): existence check, optional
auto-detection, target normalization, then dispatch to the per-type writer,
all inside the outer `try/except Exception` returning `False`. -/
def write_iso (env : ImgEnv) (iso_path target_drive iso_type : String)
    (extract_files : Bool) : List ImgEv × Bool :=
  if env.imageExists = false then
    ([.progress 0 ("Error: ISO file not found: " ++ iso_path)], false)
  else
    let (trDetect, ty) :=
      if iso_type = "auto" then
        let t := detect_iso_type env.system iso_path env.probe
        ([ImgEv.progress 5 "Detecting ISO type...", ImgEv.progress 10 ("Detected ISO type: " ++ t)], t)
      else ([], iso_type)
    if env.system ≠ "Windows" ∧ env.targetExists = false then
      (trDetect ++ [.progress 0 ("Error: Target drive not found: " ++ target_drive)], false)
    else
      let target :=
        if env.system = "Windows" then
          if target_drive.pyLen = 1 then target_drive ++ ":\\"
          else if target_drive.pyEndsWith ":\\" = false then target_drive ++ ":\\"
          else target_drive
        else target_drive
      let (tr, b) :=
        if extract_files = false then write_image_direct env iso_path target
        else if ty.pyLower = "windows" then write_windows_iso env
        else if ty.pyLower = "linux" ∨ ty.pyLower = "ubuntu" ∨ ty.pyLower = "debian"
            ∨ ty.pyLower = "fedora" then write_linux_iso env iso_path target
        else if ty.pyLower = "freedos" ∨ ty.pyLower = "msdos" ∨ ty.pyLower = "dos" then
          write_dos_iso env
        else write_generic_iso env
      (trDetect ++ tr, b)

/-! ## LinuxBootSector (`src/core/boot_sector/linux.py`) and
`BaseBootSector._find_or_create_mbr` (`src/core/boot_sector/base.py`) -/

/-- The five hex literals of `_find_or_create_mbr` (base.py lines 138-142),
verbatim.  Note the first one has 43 digits — an odd length. -/
def mbrHex1 : String := "33C08ED0BC007C8BF4507C50068C067C681E0001066"

def mbrHex2 : String := "8B1E5C7C66FF065A7CB8C07CEB4E0752E280F2B280"

def mbrHex3 : String := "F6F372CD13731F8BF5EA007C0000B041BBAA55CD13"

def mbrHex4 : String := "720C817FFE7D55AA740B33C0CD13EB5E8A5640668B"

def mbrHex5 : String := "1E5C7C668B1E5C7C66FF065A7CB8C07C"

/-- Hexadecimal digit test, as accepted by `bytes.fromhex`. -/
def isHexDig (c : Char) : Bool :=
  c.isDigit || ('a' ≤ c && c ≤ 'f') || ('A' ≤ c && c ≤ 'F')

/-- Whether `bytes.fromhex` accepts the literal: an even number of hex
digits.  (The source literals contain no whitespace.) -/
def fromhexOk : List Char → Bool
  | [] => true
  | [_] => false
  | a :: b :: rest => isHexDig a && isHexDig b && fromhexOk rest

/-- `BaseBootSector._find_or_create_mbr` (base.py lines 127-144): return the
cached `mbr.bin` path, else recreate the file from the hex literals —
`bytes.fromhex` raises `ValueError` if any literal is malformed. -/
def find_or_create_mbr (resourceMbrExists : Bool) (resource_dir : String) :
    Except PyExc String :=
  let mbr_bin := resource_dir ++ "/mbr.bin"
  if resourceMbrExists then .ok mbr_bin
  else
    if fromhexOk mbrHex1.toList && fromhexOk mbrHex2.toList && fromhexOk mbrHex3.toList
        && fromhexOk mbrHex4.toList && fromhexOk mbrHex5.toList then
      .ok mbr_bin
    else .error (.valueError "non-hexadecimal number found in fromhex() arg")

/-- Outcomes of the external calls of one `LinuxBootSector.write_bios_boot`
run, one field per call site. -/
structure LnxBootEnv where
  resourceDir : String := "/tmp/smartboot_resources"
  dev1Exists : Bool := true
  devP1Exists : Bool := false
  partedAvail : Bool := false
  partedSetBoot : Except PyExc Unit := .ok ()
  syslinuxAvail : Bool := false
  syslinuxInstall : Except PyExc Unit := .ok ()
  sysMbrPath : Option String := none
  ddSysMbr : Except PyExc Unit := .ok ()
  extlinuxAvail : Bool := false
  dlExists : Bool := false
  mountRun : Except PyExc Unit := .ok ()
  mountDirName : String := "/tmp/smartboot_mount_1"
  extlinuxInstall : Except PyExc Unit := .ok ()
  extMbrPath : Option String := none
  ddExtMbr : Except PyExc Unit := .ok ()
  msSysAvail : Bool := false
  msSysRun : Except PyExc Unit := .ok ()
  mbrResourceExists : Bool := true
  ddMbr : Except PyExc Unit := .ok ()
  fdiskRun : Except PyExc Unit := .ok ()

/-- `LinuxBootSector._get_device_partition` (linux.py lines 68-96):
`<dev>1` when it exists, else `<dev>p1`, else none. -/
def lnx_get_device_partition (env : LnxBootEnv) (dev : String) : Option String :=
  if env.dev1Exists then some (dev ++ "1")
  else if env.devP1Exists then some (dev ++ "p1")
  else none

/-- `LinuxBootSector._mount_partition` (linux.py lines 98-126): mount the
partition at a scratch directory; any exception yields `None`. -/
def lnx_mount_partition (env : LnxBootEnv) (p? : Option String) : Option String :=
  match p? with
  | none => none
  | some _ =>
    match env.mountRun with
    | .ok _ => some env.mountDirName
    | .error _ => none

/-- Method 4 of `write_bios_boot` (linux.py lines 258-283): direct MBR write
with dd, with the `fdisk` last-ditch attempt in the exception handler and the
final fixed failure message on fall-through. -/
def lnx_method4 (env : LnxBootEnv) (msgs : List (Int × String)) :
    List (Int × String) × Except PyExc Bool :=
  let msgs := msgs ++ [((80 : Int), "Trying direct MBR writing...")]
  let afterExc (e : PyExc) : List (Int × String) × Except PyExc Bool :=
    let msgs := msgs ++ [((90 : Int), "dd fallback failed: " ++ e.pyStr)]
    match env.fdiskRun with
    | .ok _ => (msgs ++ [((95 : Int), "Attempted partition flag with fdisk")], .ok true)
    | .error _ =>
      (msgs ++ [((0 : Int), "Failed to write BIOS boot sector using any available method")],
       .ok false)
  match find_or_create_mbr env.mbrResourceExists env.resourceDir with
  | .error e => afterExc e
  | .ok _ =>
    match env.ddMbr with
    | .ok _ => (msgs ++ [((100 : Int), "Boot sector written with dd")], .ok true)
    | .error e => afterExc e

/-- Method 3 of `write_bios_boot` (linux.py lines 247-256): `ms-sys`; a
`CalledProcessError` is silently swallowed (`pass`). -/
def lnx_method3 (env : LnxBootEnv) (msgs : List (Int × String)) :
    List (Int × String) × Except PyExc Bool :=
  if env.msSysAvail then
    let msgs := msgs ++ [((70 : Int), "Trying ms-sys for MBR...")]
    match env.msSysRun with
    | .ok _ => (msgs ++ [((100 : Int), "Boot sector written with ms-sys")], .ok true)
    | .error (.calledProcessError _ _) => lnx_method4 env msgs
    | .error e => (msgs, .error e)
  else lnx_method4 env msgs

/-- Method 2 of `write_bios_boot` (linux.py lines 207-245): `extlinux` against
a mount point (the device's recorded one, else a fresh scratch mount), plus
the MBR dd; both `CalledProcessError` and other exceptions fall through with
an "extlinux failed" message. -/
def lnx_method2 (env : LnxBootEnv) (partition : Option String)
    (driveLetter : Option String) (partition_scheme : String)
    (msgs : List (Int × String)) : List (Int × String) × Except PyExc Bool :=
  if env.extlinuxAvail then
    let msgs := msgs ++ [((60 : Int), "Trying extlinux...")]
    let mount_point : Option String :=
      match driveLetter with
      | some dl => if dl ≠ "" ∧ env.dlExists then some dl else lnx_mount_partition env partition
      | none => lnx_mount_partition env partition
    match mount_point with
    | none => lnx_method3 env msgs
    | some _ =>
      match env.extlinuxInstall with
      | .error e =>
        lnx_method3 env (msgs ++ [((65 : Int), "extlinux failed: " ++ e.stderrOrStr)])
      | .ok _ =>
        if partition_scheme = "mbr" then
          match env.extMbrPath with
          | none => (msgs ++ [((100 : Int), "Boot sector written with extlinux")], .ok true)
          | some _ =>
            match env.ddExtMbr with
            | .ok _ => (msgs ++ [((100 : Int), "Boot sector written with extlinux")], .ok true)
            | .error e =>
              lnx_method3 env (msgs ++ [((65 : Int), "extlinux failed: " ++ e.stderrOrStr)])
        else (msgs ++ [((100 : Int), "Boot sector written with extlinux")], .ok true)
  else lnx_method3 env msgs

/-- Method 1 of `write_bios_boot` (linux.py lines 177-205): `syslinux`
(attempted only for Linux/generic image types), plus the MBR dd; only
`CalledProcessError` is recovered, with a "syslinux failed" message. -/
def lnx_method1 (env : LnxBootEnv) (partition : Option String)
    (driveLetter : Option String) (iso_type partition_scheme : String)
    (msgs : List (Int × String)) : List (Int × String) × Except PyExc Bool :=
  if (iso_type = "linux" ∨ iso_type = "ubuntu" ∨ iso_type = "debian" ∨ iso_type = "fedora"
      ∨ iso_type = "generic") ∧ env.syslinuxAvail then
    let msgs := msgs ++ [((50 : Int), "Installing syslinux boot code...")]
    match partition with
    | none => lnx_method2 env partition driveLetter partition_scheme msgs
    | some _ =>
      match env.syslinuxInstall with
      | .error (.calledProcessError st _) =>
        lnx_method2 env partition driveLetter partition_scheme
          (msgs ++ [((55 : Int), "syslinux failed: " ++ st)])
      | .error e => (msgs, .error e)
      | .ok _ =>
        if partition_scheme = "mbr" then
          match env.sysMbrPath with
          | none => (msgs ++ [((100 : Int), "Boot sector written with syslinux")], .ok true)
          | some mp =>
            let msgs := msgs ++ [((70 : Int), "Installing MBR from " ++ mp ++ "...")]
            match env.ddSysMbr with
            | .ok _ => (msgs ++ [((100 : Int), "Boot sector written with syslinux")], .ok true)
            | .error (.calledProcessError st _) =>
              lnx_method2 env partition driveLetter partition_scheme
                (msgs ++ [((55 : Int), "syslinux failed: " ++ st)])
            | .error e => (msgs, .error e)
        else (msgs ++ [((100 : Int), "Boot sector written with syslinux")], .ok true)
  else lnx_method2 env partition driveLetter partition_scheme msgs

/-- `LinuxBootSector.write_bios_boot` (linux.py lines 128-283): mark the
partition bootable, then the four-method fallback chain.  Returns the ordered
progress messages and the boolean result (or a propagating exception). -/
def lnx_write_bios_boot (env : LnxBootEnv) (device : Device) (options : BootOptions) :
    List (Int × String) × Except PyExc Bool :=
  match device.name with
  | none => ([((0 : Int), "Device name not found for boot sector")], .ok false)
  | some path =>
    if path = "" then ([((0 : Int), "Device name not found for boot sector")], .ok false)
    else
      let dev := if path.pyStartsWith "/dev/" then path else "/dev/" ++ path
      let iso_type := (options.iso_type.getD "generic").pyLower
      let partition_scheme := (options.partition_scheme.getD "mbr").pyLower
      let partition := lnx_get_device_partition env dev
      let m0 : List (Int × String) := [((10 : Int), "Writing BIOS boot sector...")]
      match partition with
      | some p =>
        let base := m0 ++ [((20 : Int), "Found partition " ++ p)]
        if env.partedAvail then
          match env.partedSetBoot with
          | .ok _ =>
            lnx_method1 env partition device.driveLetter iso_type partition_scheme
              (base ++ [((30 : Int), "Marking partition as bootable..."),
                        ((40 : Int), "Partition marked as bootable")])
          | .error (.calledProcessError st _) =>
            lnx_method1 env partition device.driveLetter iso_type partition_scheme
              (base ++ [((30 : Int), "Marking partition as bootable..."),
                        ((35 : Int), "Warning: Could not mark partition as bootable: " ++ st)])
          | .error e =>
            (base ++ [((30 : Int), "Marking partition as bootable...")], .error e)
        else
          lnx_method1 env partition device.driveLetter iso_type partition_scheme base
      | none =>
        lnx_method1 env partition device.driveLetter iso_type partition_scheme
          (m0 ++ [((20 : Int), "Warning: Could not find first partition for " ++ dev)])

/-! ## USBWorker (`src/worker.py`) -/

/-- One observable event of a `USBWorker.run`: a Qt signal emission or one
stage action on the device. -/
inductive WkEv where
  | status (msg : String)
  | progressStep
  | progressPct (pct : Nat)
  | badBlocksCheck
  | verifyIso (i : Nat)
  | formatDrive
  | copyIso (i : Nat)
  | installBoot
  | emitCompleted
  | emitError (msg : String)
deriving Repr, DecidableEq

/-- Outcomes of the external calls of one `USBWorker` run.  `cancelled k` is
the value the `self.is_cancelled` flag has when the worker reads it for the
`k`-th time (the flag is written concurrently by `cancel()`; the worker only
ever reads it at its explicit check points, numbered in program order). -/
structure WkEnv where
  cancelled : Nat → Bool := fun _ => false
  sysReq : Except PyExc Unit := .ok ()
  badBlocks : Except PyExc Unit := .ok ()
  verify : Nat → Bool := fun _ => true
  anyWindowsImage : Bool := false
  formatRun : Except PyExc Unit := .ok ()
  copyRun : Nat → Except PyExc Unit := fun _ => .ok ()
  bootloaderRun : Except PyExc Unit := .ok ()

/-- Result of a worker sub-stage: the events it emitted, the next
cancellation-check index, and either normal completion (which covers both
falling through and an early `return` upon observing the flag) or a
propagating exception. -/
structure WkStage where
  tr : List WkEv
  k : Nat
  out : Except PyExc Unit

/-- `USBWorker.verify_all_isos` (worker.py lines 85-94): per ISO, a
cancellation check, a status message, the integrity check (raising
`ValueError` on failure) and two progress updates.  The emitted percentage is
`int(((index + 1) / len) * 100)`, modelled with natural division. -/
def worker_verify_isos (env : WkEnv) (isos : List String) (n i k : Nat)
    (tr : List WkEv) : WkStage :=
  match isos with
  | [] => ⟨tr, k, .ok ()⟩
  | iso :: rest =>
    if env.cancelled k then ⟨tr, k + 1, .ok ()⟩
    else
      let tr := tr ++ [WkEv.status ("Verifying ISO: " ++ pyBasename iso)]
      if env.verify i then
        worker_verify_isos env rest n (i + 1) (k + 1)
          (tr ++ [WkEv.verifyIso i, WkEv.progressStep, WkEv.progressPct ((i + 1) * 100 / n)])
      else
        ⟨tr ++ [WkEv.verifyIso i], k + 1, .error (.valueError ("ISO verification failed for " ++ iso))⟩

/-- `USBWorker.copy_iso_files` (worker.py lines 358-369): per ISO, a
cancellation check, a status message, the copy (a failure is re-raised as
`RuntimeError`), and a progress update. -/
def worker_copy_isos (env : WkEnv) (isos : List String) (i k : Nat)
    (tr : List WkEv) : WkStage :=
  match isos with
  | [] => ⟨tr, k, .ok ()⟩
  | iso :: rest =>
    if env.cancelled k then ⟨tr, k + 1, .ok ()⟩
    else
      let tr := tr ++ [WkEv.status ("Copying " ++ pyBasename iso ++ "...")]
      match env.copyRun i with
      | .ok _ =>
        worker_copy_isos env rest (i + 1) (k + 1) (tr ++ [WkEv.copyIso i, WkEv.progressStep])
      | .error e =>
        ⟨tr ++ [WkEv.copyIso i], k + 1,
         .error (.runtimeError ("Failed to copy " ++ iso ++ ": " ++ e.pyStr))⟩

/-- `USBWorker.create_linux_bootable` (worker.py lines 307-330): format, then
— only if the cancellation flag is still clear — copy the ISO files, then —
again only if the flag is still clear — install the bootloader.  Exceptions
are re-raised as `RuntimeError`. -/
def create_linux_bootable (env : WkEnv) (isos : List String) (boot_type : String)
    (k : Nat) : WkStage :=
  let tr0 := [WkEv.status "Formatting drive..."]
  match env.formatRun with
  | .error e =>
    ⟨tr0 ++ [WkEv.formatDrive], k,
     .error (.runtimeError ("Failed to create bootable USB: " ++ e.pyStr))⟩
  | .ok _ =>
    let tr1 := tr0 ++ [WkEv.formatDrive, WkEv.progressStep]
    if env.cancelled k then ⟨tr1, k + 1, .ok ()⟩
    else
      let s := worker_copy_isos env isos 0 (k + 1) (tr1 ++ [WkEv.status "Copying ISO files..."])
      match s.out with
      | .error e =>
        ⟨s.tr, s.k, .error (.runtimeError ("Failed to create bootable USB: " ++ e.pyStr))⟩
      | .ok _ =>
        if env.cancelled s.k then ⟨s.tr, s.k + 1, .ok ()⟩
        else
          let tr2 := s.tr ++ [WkEv.status "Installing bootloader..."]
          if boot_type = "UEFI" ∨ boot_type = "Legacy" then
            match env.bootloaderRun with
            | .error e =>
              ⟨tr2 ++ [WkEv.installBoot], s.k + 1,
               .error (.runtimeError ("Failed to create bootable USB: " ++ e.pyStr))⟩
            | .ok _ => ⟨tr2 ++ [WkEv.installBoot, WkEv.progressStep], s.k + 1, .ok ()⟩
          else ⟨tr2 ++ [WkEv.progressStep], s.k + 1, .ok ()⟩

/-- `USBWorker.copy_windows_files` (worker.py lines 229-237): per ISO, the
extract/apply call (no cancellation check inside this loop). -/
def worker_copy_windows (env : WkEnv) (isos : List String) (i : Nat)
    (tr : List WkEv) : List WkEv × Except PyExc Unit :=
  match isos with
  | [] => (tr, .ok ())
  | iso :: rest =>
    match env.copyRun i with
    | .ok _ => worker_copy_windows env rest (i + 1) (tr ++ [WkEv.copyIso i, WkEv.progressStep])
    | .error e =>
      (tr ++ [WkEv.copyIso i],
       .error (.runtimeError ("Failed to extract Windows ISO: " ++ e.pyStr)))

/-- `USBWorker.create_windows_bootable` (worker.py lines 191-213). -/
def create_windows_bootable (env : WkEnv) (isos : List String) (k : Nat) : WkStage :=
  let tr0 := [WkEv.status "Preparing Windows bootable USB...", WkEv.formatDrive,
              WkEv.progressStep]
  match env.formatRun with
  | .error e =>
    ⟨[WkEv.status "Preparing Windows bootable USB...", WkEv.formatDrive], k,
     .error (.runtimeError ("Windows USB creation failed: " ++ e.pyStr))⟩
  | .ok _ =>
    if env.cancelled k then ⟨tr0, k + 1, .ok ()⟩
    else
      let c := worker_copy_windows env isos 0 tr0
      match c.2 with
      | .error e =>
        ⟨c.1, k + 1, .error (.runtimeError ("Windows USB creation failed: " ++ e.pyStr))⟩
      | .ok _ =>
        if env.cancelled (k + 1) then ⟨c.1, k + 2, .ok ()⟩
        else
          let tr2 := c.1 ++ [WkEv.status "Setting up Windows bootloader..."]
          match env.bootloaderRun with
          | .error e =>
            ⟨tr2 ++ [WkEv.installBoot], k + 2,
             .error (.runtimeError ("Windows USB creation failed: " ++ e.pyStr))⟩
          | .ok _ => ⟨tr2 ++ [WkEv.installBoot, WkEv.progressStep], k + 2, .ok ()⟩

/-- `USBWorker.create_bootable_usb` (worker.py lines 181-189): choose the
Windows or the Linux path; any exception is re-raised as `RuntimeError`. -/
def create_bootable_usb (env : WkEnv) (isos : List String) (boot_type : String)
    (k : Nat) : WkStage :=
  let s :=
    if env.anyWindowsImage then create_windows_bootable env isos k
    else create_linux_bootable env isos boot_type k
  match s.out with
  | .ok _ => ⟨WkEv.status "Checking image type..." :: s.tr, s.k, .ok ()⟩
  | .error e =>
    ⟨WkEv.status "Checking image type..." :: s.tr, s.k,
     .error (.runtimeError ("Failed to create bootable USB: " ++ e.pyStr))⟩

/-- `USBWorker.run` (worker.py lines 57-75): requirements check, optional
bad-blocks check, ISO verification, a cancellation check, the creation
pipeline, and the completion signal — emitted only if the flag is still
clear; the `except` handler emits `error_occurred` and runs
`cleanup_on_error`. -/
def usb_worker_run (env : WkEnv) (isos : List String) (check_bad_blocks : Bool)
    (boot_type : String) : List WkEv :=
  match env.sysReq with
  | .error e => [WkEv.emitError e.pyStr, WkEv.status "Cleaning up..."]
  | .ok _ =>
    let tr0 : List WkEv := [WkEv.progressStep]
    let bb : List WkEv × Except PyExc Unit :=
      if check_bad_blocks then
        match env.badBlocks with
        | .ok _ =>
          (tr0 ++ [WkEv.status "Checking for bad blocks...", WkEv.badBlocksCheck,
                   WkEv.progressStep], .ok ())
        | .error e =>
          (tr0 ++ [WkEv.status "Checking for bad blocks...", WkEv.badBlocksCheck],
           .error (.runtimeError ("Bad blocks check failed: " ++ e.pyStr)))
      else (tr0, .ok ())
    match bb.2 with
    | .error e => bb.1 ++ [WkEv.emitError e.pyStr, WkEv.status "Cleaning up..."]
    | .ok _ =>
      let v := worker_verify_isos env isos isos.length 0 0 bb.1
      match v.out with
      | .error e => v.tr ++ [WkEv.emitError e.pyStr, WkEv.status "Cleaning up..."]
      | .ok _ =>
        if env.cancelled v.k then v.tr
        else
          let c := create_bootable_usb env isos boot_type (v.k + 1)
          match c.out with
          | .error e => v.tr ++ c.tr ++ [WkEv.emitError e.pyStr, WkEv.status "Cleaning up..."]
          | .ok _ =>
            if env.cancelled c.k then v.tr ++ c.tr
            else v.tr ++ c.tr ++ [WkEv.emitCompleted]

/-- Worker events that act on the device or cross the pipeline boundary
(stage actions and terminal signal emissions), as opposed to status/progress
reporting. -/
def WkEv.isStageAction : WkEv → Bool
  | .badBlocksCheck => true
  | .formatDrive => true
  | .copyIso _ => true
  | .installBoot => true
  | .emitCompleted => true
  | .emitError _ => true
  | _ => false

/-! ## Theorems -/

/-- C1: for boot type `dual`, `BootSectorManager.write_boot_sector` invokes
both the BIOS boot write and the UEFI boot write (the UEFI write is attempted
even when the BIOS write returned false, and vice versa), and returns true iff
at least one of the two writes returned true.  Stated for runs that reach the
boot-type dispatch: the device carries no error key, the privilege check
passes, and both writes return (rather than raise). -/
theorem dual_boot_invokes_both_and_is_or (env : BootEnv) (device : Device)
    (options : BootOptions) (b u : Bool)
    (herr : device.errorField = none)
    (hadmin : env.check_admin_privileges = .ok true)
    (hdual : (options.boot_type.getD "bios").pyLower = "dual")
    (hb : env.write_bios_boot = .ok b)
    (hu : env.write_uefi_boot = .ok u) :
    (write_boot_sector env device options).1 = [.checkAdmin, .bios, .uefi] ∧
    ((write_boot_sector env device options).2 = true ↔ (b = true ∨ u = true)) := by
  simp [write_boot_sector, write_boot_sector_body, herr, hadmin, hdual, hb, hu]

/-- Witness for C1: a concrete dual-boot run where the BIOS write fails and
the UEFI write succeeds. -/
theorem dual_boot_invokes_both_and_is_or_witness :
    (write_boot_sector { write_bios_boot := .ok false } {} { boot_type := some "dual" }).1
      = [.checkAdmin, .bios, .uefi] ∧
    ((write_boot_sector { write_bios_boot := .ok false } {} { boot_type := some "dual" }).2 = true
      ↔ (false = true ∨ true = true)) :=
  dual_boot_invokes_both_and_is_or { write_bios_boot := .ok false } {}
    { boot_type := some "dual" } false true rfl rfl (by decide) rfl rfl

/-- C2: a device whose record carries a non-empty error value makes
`write_boot_sector` return false and `format_disk` return `(false, "")`
immediately: no implementation call at all on the boot-sector side, and on the
formatter side only the error progress message — no destructive operation and
no platform primitive. -/
theorem error_device_short_circuits (envB : BootEnv) (device : Device)
    (options : BootOptions) (envF : FmtEnv) (fs label scheme : String) (quick : Bool)
    (s : String) (herr : device.errorField = some s) (hne : s ≠ "") :
    write_boot_sector envB device options = ([], false) ∧
    format_disk envF device fs label scheme quick
      = ([.progress 0 ("Error: " ++ s)], (false, "")) ∧
    ∀ ev ∈ (format_disk envF device fs label scheme quick).1, ev.isDestructive = false := by
  refine ⟨?_, ?_, ?_⟩
  · simp [write_boot_sector, write_boot_sector_body, herr]
  · simp [format_disk, herr]
  · simp [format_disk, herr, FmtEv.isDestructive]

/-- Witness for C2: a concrete device with error value "device busy". -/
theorem error_device_short_circuits_witness :
    write_boot_sector {} { errorField := some "device busy" } {} = ([], false) ∧
    format_disk {} { errorField := some "device busy" } "fat32" "BOOT" "MBR" true
      = ([.progress 0 ("Error: " ++ "device busy")], (false, "")) ∧
    ∀ ev ∈ (format_disk {} { errorField := some "device busy" } "fat32" "BOOT" "MBR" true).1,
      ev.isDestructive = false :=
  error_device_short_circuits {} { errorField := some "device busy" } {} {}
    "fat32" "BOOT" "MBR" true "device busy" rfl (by decide)

/-- C9: the short-circuit tests key presence only — a device record that
contains the key `'error'` with the empty string as value is also rejected:
`write_boot_sector` returns false and `format_disk` returns `(false, "")`
without any platform call. -/
theorem error_key_presence_short_circuits (envB : BootEnv) (device : Device)
    (options : BootOptions) (envF : FmtEnv) (fs label scheme : String) (quick : Bool)
    (herr : device.errorField = some "") :
    write_boot_sector envB device options = ([], false) ∧
    format_disk envF device fs label scheme quick
      = ([.progress 0 ("Error: " ++ "")], (false, "")) := by
  refine ⟨?_, ?_⟩
  · simp [write_boot_sector, write_boot_sector_body, herr]
  · simp [format_disk, herr]

/-- Witness for C9: the concrete device whose error value is the empty
string. -/
theorem error_key_presence_short_circuits_witness :
    write_boot_sector {} { errorField := some "" } {} = ([], false) ∧
    format_disk {} { errorField := some "" } "fat32" "BOOT" "MBR" true
      = ([.progress 0 ("Error: " ++ "")], (false, "")) :=
  error_key_presence_short_circuits {} { errorField := some "" } {} {}
    "fat32" "BOOT" "MBR" true rfl

/-- C3 counterexample: detection does not return "freedos" for
"FD13-LiveCD.iso".  The filename matches no keyword ("dos" is not a substring
of "fd13-livecd.iso"), and content inspection only exists on Windows hosts —
on a Linux host the function returns "generic" even when the content plainly
carries the FreeDOS markers. -/
theorem detect_fd13_returns_generic_on_linux :
    detect_iso_type "Linux" "FD13-LiveCD.iso" (some ⟨false, false, true⟩) = "generic" := by
  decide

/-- C3 amended: ISO-type detection is a deterministic function of filename,
host system and content-probe outcome; it returns "linux" for
"ubuntu-22.04-desktop-amd64.iso" and "windows" for
"Win11_24H2_EnglishInternational.iso" on every host and for every content
probe; it returns "freedos" for "FD13-LiveCD.iso" only on a Windows host whose
content inspection reports DOS markers; and it returns "generic" for
"image.iso" when no keyword matches and content inspection is inconclusive
(raises, or finds no marker). -/
theorem detect_iso_type_amended (system : String) (probe : Option ContentMarkers) :
    detect_iso_type system "ubuntu-22.04-desktop-amd64.iso" probe = "linux" ∧
    detect_iso_type system "Win11_24H2_EnglishInternational.iso" probe = "windows" ∧
    detect_iso_type "Windows" "FD13-LiveCD.iso" (some ⟨false, false, true⟩) = "freedos" ∧
    detect_iso_type system "image.iso" none = "generic" ∧
    detect_iso_type system "image.iso" (some ⟨false, false, false⟩) = "generic" := by
  refine ⟨rfl, rfl, rfl, ?_, ?_⟩
  · by_cases hs : system = "Windows" <;> simp [detect_iso_type, hs] <;> decide
  · by_cases hs : system = "Windows" <;> simp [detect_iso_type, hs] <;> decide

/-- C10 counterexample: on Windows with no `dd` on PATH, an elevated process
and a succeeding PowerShell run, `write_disk_image` of a `.zip` image performs
the raw PowerShell chunked write (of the still-compressed bytes) and returns
true — the PowerShell fallback never consults the compression flag. -/
theorem zip_image_raw_written_on_windows_without_dd :
    (write_disk_image { system := "Windows", ddAvail := false } "image.zip").2 = true ∧
    ImgEv.psRawWrite ∈ (write_disk_image { system := "Windows", ddAvail := false } "image.zip").1 := by
  decide

/-- C10 amended: a `.zip` image is classified as compressed, and is rejected
with the unsupported-compression diagnostic and a false result on Linux/macOS
always, and on Windows whenever `dd` is available; but on Windows without
`dd`, the PowerShell fallback ignores the compression flag and raw-writes the
compressed bytes, returning true when the write succeeds. -/
theorem zip_image_handling_amended (env : ImgEnv) (image_path : String)
    (hzip : image_path.pyLower.pyEndsWith ".zip" = true)
    (hgz : image_path.pyLower.pyEndsWith ".gz" = false)
    (hxz : image_path.pyLower.pyEndsWith ".xz" = false)
    (hbz : image_path.pyLower.pyEndsWith ".bz2" = false)
    (hex : env.imageExists = true) :
    (env.system ≠ "Windows" →
      write_disk_image env image_path
        = ([.progress 20 "Writing image to device...",
            .progress 0 ("Error: Unsupported compression format: " ++ image_path)], false)) ∧
    (env.system = "Windows" → env.ddAvail = true →
      write_disk_image env image_path
        = ([.progress 20 "Writing image to device...",
            .progress 0 ("Error: Unsupported compression format: " ++ image_path)], false)) ∧
    (env.system = "Windows" → env.ddAvail = false → env.winAdmin = .ok true →
      env.psWrite = .ok () →
      write_disk_image env image_path
        = ([.progress 20 "Writing image to device...", .psRawWrite,
            .progress 100 "Image written successfully"], true)) := by
  refine ⟨?_, ?_, ?_⟩
  · intro hsys
    simp [write_disk_image, write_image_unix, hex, hzip, hgz, hxz, hbz, hsys]
  · intro hsys hdd
    simp [write_disk_image, write_image_windows, hex, hzip, hgz, hxz, hbz, hsys, hdd]
  · intro hsys hdd hadm hps
    simp [write_disk_image, write_image_windows, hex, hzip, hgz, hxz, hbz, hsys, hdd, hadm, hps]

/-- Witness for the amended C10 statement at the concrete image "image.zip",
with all three host configurations exercised. -/
theorem zip_image_handling_amended_witness :
    ((({ } : ImgEnv).system ≠ "Windows" →
      write_disk_image { } "image.zip"
        = ([.progress 20 "Writing image to device...",
            .progress 0 ("Error: Unsupported compression format: " ++ "image.zip")], false)) ∧
    (({ } : ImgEnv).system = "Windows" → ({ } : ImgEnv).ddAvail = true →
      write_disk_image { } "image.zip"
        = ([.progress 20 "Writing image to device...",
            .progress 0 ("Error: Unsupported compression format: " ++ "image.zip")], false)) ∧
    (({ } : ImgEnv).system = "Windows" → ({ } : ImgEnv).ddAvail = false →
      ({ } : ImgEnv).winAdmin = .ok true → ({ } : ImgEnv).psWrite = .ok () →
      write_disk_image { } "image.zip"
        = ([.progress 20 "Writing image to device...", .psRawWrite,
            .progress 100 "Image written successfully"], true))) :=
  zip_image_handling_amended { } "image.zip" (by decide) (by decide) (by decide) (by decide) rfl

/-- C4 counterexample: a Linux `format_disk` run that destructively creates a
fresh MBR partition table (and completes successfully) without any privilege
check ever being performed — the Linux and macOS paths contain no privilege
check at all, contradicting "always preceded by a privilege check, on every
platform". -/
theorem format_linux_partition_table_without_privilege_check :
    (FmtEv.mklabel "msdos") ∈ (format_disk { } { name := some "sdb" } "fat32" "BOOT" "MBR" true).1 ∧
    FmtEv.winAdminCheck ∉ (format_disk { } { name := some "sdb" } "fat32" "BOOT" "MBR" true).1 ∧
    (format_disk { } { name := some "sdb" } "fat32" "BOOT" "MBR" true).2.1 = true := by
  decide

/-- C4 amended: only the Windows formatting path performs a privilege check
before its destructive steps — there, a check that returns false aborts with
`(false, "")` before any destructive operation; the Linux and macOS paths
perform no privilege check before creating the partition table (they rely on
`sudo`/`diskutil` failing at run time). -/
theorem format_windows_privilege_gate (env : FmtEnv) (device : Device) (n : Int)
    (fs label scheme : String) (quick : Bool)
    (hsys : env.system = "Windows") (herr : device.errorField = none)
    (hnum : device.number = some n) (hpos : 0 ≤ n)
    (hadmin : env.winAdmin = .ok false) :
    format_disk env device fs label scheme quick
      = ([.winAdminCheck, .progress 0 "Error: Administrator privileges required"],
         (false, "")) ∧
    ∀ ev ∈ (format_disk env device fs label scheme quick).1, ev.isDestructive = false := by
  have hlt : ¬ n < 0 := not_lt.mpr hpos
  constructor
  · simp [format_disk, format_windows, hsys, herr, hnum, hadmin, hlt]
  · simp [format_disk, format_windows, hsys, herr, hnum, hadmin, hlt, FmtEv.isDestructive]

/-- Witness for the amended C4 statement: a concrete non-elevated Windows
run. -/
theorem format_windows_privilege_gate_witness :
    (format_disk { system := "Windows", winAdmin := .ok false } { number := some 1 }
        "NTFS" "BOOT" "MBR" true
      = ([.winAdminCheck, .progress 0 "Error: Administrator privileges required"],
         (false, "")) ∧
    ∀ ev ∈ (format_disk { system := "Windows", winAdmin := .ok false } { number := some 1 }
        "NTFS" "BOOT" "MBR" true).1, ev.isDestructive = false) :=
  format_windows_privilege_gate { system := "Windows", winAdmin := .ok false }
    { number := some 1 } 1 "NTFS" "BOOT" "MBR" true rfl rfl rfl (by decide) rfl

/-- C5 counterexample: on macOS, `format_disk` with the unsupported filesystem
"ext4" does not fail fast with `(false, "")` — the filesystem is silently
mapped to "MS-DOS FAT32", the destructive `diskutil eraseDisk` runs, and the
call returns success. -/
theorem format_macos_unsupported_fs_formats_and_succeeds :
    format_disk { system := "Darwin" } { name := some "disk2" } "ext4" "LBL" "MBR" true
      = ([.progress 5 "Preparing to format device...", .macUnmountDisk,
          .eraseDisk "MS-DOS FAT32" "MBR",
          .progress 100 "Disk formatted successfully with ext4"],
         (true, "/Volumes/LBL")) := by
  decide

/-- C5 amended: only the Linux path rejects an unsupported filesystem with the
unsupported-filesystem diagnostic and `(false, "")`, and it does so only after
the destructive partition-table and partition creation have already run; the
Windows path has no explicit filesystem gate, and the macOS path silently maps
unknown filesystems to FAT32 and can return success. -/
theorem format_linux_unsupported_fs_rejected_late (env : FmtEnv) (device : Device)
    (fs label : String) (quick : Bool)
    (hsys : env.system = "Linux") (herr : device.errorField = none)
    (hname : device.name = some "sdb") (hmnt : env.mountOutputHasDevice = false)
    (hml : env.mklabel = .ok ()) (hmp : env.mkpart = .ok ()) (hp1 : env.part1Exists = true)
    (h1 : ¬ fs.pyLower = "fat") (h2 : ¬ fs.pyLower = "fat32") (h3 : ¬ fs.pyLower = "vfat")
    (h4 : ¬ fs.pyLower = "ntfs") (h5 : ¬ fs.pyLower = "exfat")
    (h6 : fs.pyLower.pyStartsWith "ext" = false) :
    format_disk env device fs label "MBR" quick
      = ([.progress 5 "Preparing to format device...",
          .mklabel "msdos", .progress 20 ("Created " ++ "MBR" ++ " partition table"),
          .mkpart, .progress 40 "Created partition",
          .progress 0 ("Unsupported filesystem: " ++ fs)],
         (false, "")) := by
  simp [format_disk, format_linux, hsys, herr, hname, hmnt, hml, hmp, hp1,
        h1, h2, h3, h4, h5, h6]
  decide

/-- Witness for the amended C5 statement at the concrete filesystem "hfs+"
(unsupported on Linux). -/
theorem format_linux_unsupported_fs_rejected_late_witness :
    format_disk { } { name := some "sdb" } "hfs+" "L" "MBR" true
      = ([.progress 5 "Preparing to format device...",
          .mklabel "msdos", .progress 20 ("Created " ++ "MBR" ++ " partition table"),
          .mkpart, .progress 40 "Created partition",
          .progress 0 ("Unsupported filesystem: " ++ "hfs+")],
         (false, "")) :=
  format_linux_unsupported_fs_rejected_late { } { name := some "sdb" } "hfs+" "L" true
    rfl rfl rfl rfl rfl rfl rfl (by decide) (by decide) (by decide) (by decide) (by decide)
    (by decide)

/-- C6 counterexample: a Linux `write_bios_boot` run in which every method
fails (syslinux, extlinux and ms-sys raise `CalledProcessError`, the dd
fallback and the fdisk last-ditch attempt raise).  The operation's failure
result is the bare boolean `false`; the per-method diagnostics were emitted as
separate progress messages along the way, and the final message accompanying
the failure is a fixed string that carries none of the accumulated
diagnostics. -/
theorem chain_exhaustion_returns_bare_false :
    lnx_write_bios_boot
        { syslinuxAvail := true,
          syslinuxInstall := .error (.calledProcessError "sysboom" "cmd"),
          extlinuxAvail := true,
          extlinuxInstall := .error (.calledProcessError "extboom" "cmd"),
          msSysAvail := true, msSysRun := .error (.calledProcessError "msboom" "cmd"),
          ddMbr := .error (.osError "dd failed"), fdiskRun := .error (.osError "no shell") }
        { name := some "sdb" } { }
      = ([((10 : Int), "Writing BIOS boot sector..."),
          ((20 : Int), "Found partition /dev/sdb1"),
          ((50 : Int), "Installing syslinux boot code..."),
          ((55 : Int), "syslinux failed: sysboom"),
          ((60 : Int), "Trying extlinux..."),
          ((65 : Int), "extlinux failed: extboom"),
          ((70 : Int), "Trying ms-sys for MBR..."),
          ((80 : Int), "Trying direct MBR writing..."),
          ((90 : Int), "dd fallback failed: dd failed"),
          ((0 : Int), "Failed to write BIOS boot sector using any available method")],
         .ok false) ∧
    strContains "Failed to write BIOS boot sector using any available method" "sysboom"
      = false ∧
    strContains "Failed to write BIOS boot sector using any available method" "extboom"
      = false :=
  ⟨rfl, by decide, by decide⟩

/-- C6 amended: when every method of the Linux BIOS chain fails, each failing
method's diagnostic is emitted as its own progress message at the moment it
fails; the chain's final result is the bare boolean false accompanied by the
fixed message "Failed to write BIOS boot sector using any available method" —
there is no accumulator concatenating the attempted methods' diagnostics into
the failure result. -/
theorem chain_exhaustion_amended (s1 s2 m3 : String) :
    lnx_write_bios_boot
        { syslinuxAvail := true, syslinuxInstall := .error (.calledProcessError s1 "cmd"),
          extlinuxAvail := true, extlinuxInstall := .error (.calledProcessError s2 "cmd"),
          msSysAvail := true, msSysRun := .error (.calledProcessError "ms" "cmd"),
          ddMbr := .error (.osError m3), fdiskRun := .error (.osError "no shell") }
        { name := some "sdb" } { }
      = ([((10 : Int), "Writing BIOS boot sector..."),
          ((20 : Int), "Found partition /dev/sdb1"),
          ((50 : Int), "Installing syslinux boot code..."),
          ((55 : Int), "syslinux failed: " ++ s1),
          ((60 : Int), "Trying extlinux..."),
          ((65 : Int), "extlinux failed: " ++ s2),
          ((70 : Int), "Trying ms-sys for MBR..."),
          ((80 : Int), "Trying direct MBR writing..."),
          ((90 : Int), "dd fallback failed: " ++ m3),
          ((0 : Int), "Failed to write BIOS boot sector using any available method")],
         .ok false) := by
  rfl

/-- C7: the public pipeline operations return their declared result values and
never let a raised exception cross the pipeline boundary.  (1) Whenever the
body of `write_boot_sector` ends in an exception (e.g. a platform call
raises), the public function returns `false` with the trace so far;
(2) a raising tool call inside `format_disk` (here: `parted mklabel` on
Linux) surfaces as the `(false, "")` result; (3) a raising tool call inside
`write_iso` (here: 7-Zip extraction in the generic path) surfaces as a `false`
result.  In the embedding the public functions' codomains contain no
exception at all. -/
theorem pipeline_no_fault_propagation
    (envB : BootEnv) (device : Device) (options : BootOptions)
    (envF : FmtEnv) (dF : Device) (fs label scheme nm : String) (quick : Bool)
    (envI : ImgEnv) (iso tgt st m : String) (e : PyExc) :
    (∀ tr e', write_boot_sector_body envB device options = (tr, .error e') →
        write_boot_sector envB device options = (tr, false)) ∧
    (envF.system = "Linux" → dF.errorField = none → dF.name = some nm → nm ≠ "" →
      envF.mklabel = .error (.calledProcessError st m) →
      (format_disk envF dF fs label scheme quick).2 = (false, "")) ∧
    (envI.system = "Linux" → envI.imageExists = true → envI.targetExists = true →
      envI.sevenZipAvail = true → envI.extract7z = .error e →
      (write_iso envI iso tgt "generic" true).2 = false) := by
  refine ⟨?_, ?_, ?_⟩
  · intro tr e' h
    simp [write_boot_sector, h]
  · intro hsys herr hname hne hml
    simp [format_disk, format_linux, hsys, herr, hname, hne, hml]
  · intro hsys hex htgt h7 hz
    simp +decide [write_iso, write_generic_iso, extract_iso_step, hsys, hex, htgt, h7, hz]

/-- Witness for C7: concrete runs in which (1) the privilege check raises,
(2) `parted mklabel` raises, (3) 7-Zip extraction raises — each public
operation still returns its plain result value. -/
theorem pipeline_no_fault_propagation_witness :
    write_boot_sector { check_admin_privileges := .error (.osError "boom") } {} {}
      = ([.checkAdmin], false) ∧
    (format_disk { mklabel := .error (.calledProcessError "p" "q") } { name := some "sdb" }
        "fat32" "BOOT" "MBR" true).2 = (false, "") ∧
    (write_iso { extract7z := .error (.osError "no 7z") } "a.iso" "/mnt/usb" "generic" true).2
      = false :=
  ⟨(pipeline_no_fault_propagation { check_admin_privileges := .error (.osError "boom") } {} {}
      { mklabel := .error (.calledProcessError "p" "q") } { name := some "sdb" }
      "fat32" "BOOT" "MBR" "sdb" true
      { extract7z := .error (.osError "no 7z") } "a.iso" "/mnt/usb" "p" "q"
      (.osError "no 7z")).1 [.checkAdmin] (.osError "boom") rfl,
   (pipeline_no_fault_propagation { check_admin_privileges := .error (.osError "boom") } {} {}
      { mklabel := .error (.calledProcessError "p" "q") } { name := some "sdb" }
      "fat32" "BOOT" "MBR" "sdb" true
      { extract7z := .error (.osError "no 7z") } "a.iso" "/mnt/usb" "p" "q"
      (.osError "no 7z")).2.1 rfl rfl rfl (by decide) rfl,
   (pipeline_no_fault_propagation { check_admin_privileges := .error (.osError "boom") } {} {}
      { mklabel := .error (.calledProcessError "p" "q") } { name := some "sdb" }
      "fat32" "BOOT" "MBR" "sdb" true
      { extract7z := .error (.osError "no 7z") } "a.iso" "/mnt/usb" "p" "q"
      (.osError "no 7z")).2.2 rfl rfl rfl rfl rfl⟩

/-- Under an always-succeeding integrity check and a cancellation flag that
stays clear throughout the loop, `verify_all_isos` completes normally,
consumes one flag read per ISO, and appends only status/progress/verification
events — no stage action. -/
theorem worker_verify_isos_spec (env : WkEnv) (hver : ∀ j, env.verify j = true) :
    ∀ (isos : List String) (n i k : Nat) (tr : List WkEv),
      (∀ k', k' < k + isos.length → env.cancelled k' = false) →
      ∃ ext, worker_verify_isos env isos n i k tr = ⟨tr ++ ext, k + isos.length, .ok ()⟩ ∧
        ∀ ev ∈ ext, ev.isStageAction = false := by
  intro isos
  induction isos with
  | nil =>
    intro n i k tr _
    exact ⟨[], by simp [worker_verify_isos], by simp⟩
  | cons iso rest ih =>
    intro n i k tr hc
    have hck : env.cancelled k = false := hc k (by simp)
    obtain ⟨ext, heq, hben⟩ :=
      ih n (i + 1) (k + 1)
        ((tr ++ [WkEv.status ("Verifying ISO: " ++ pyBasename iso)]) ++
          [WkEv.verifyIso i, WkEv.progressStep, WkEv.progressPct ((i + 1) * 100 / n)])
        (fun k' hk' => hc k' (by simp at hk' ⊢; omega))
    refine ⟨[WkEv.status ("Verifying ISO: " ++ pyBasename iso), WkEv.verifyIso i,
             WkEv.progressStep, WkEv.progressPct ((i + 1) * 100 / n)] ++ ext, ?_, ?_⟩
    · simp only [worker_verify_isos, hck, Bool.false_eq_true, if_false, hver i, if_true]
      rw [heq]
      simp [WkStage.mk.injEq, List.append_assoc]
      omega
    · intro ev hev
      rcases List.mem_append.mp hev with h | h
      · fin_cases h <;> simp [WkEv.isStageAction]
      · exact hben ev h

/-- C8: when the cancellation flag becomes set after the formatting stage
completes (all flag reads up to and including the post-verification check saw
it clear; the post-formatting check and every later read see it set), the
worker performs the format but neither the file-copy stage nor the bootloader
stage, emits neither the completion signal nor an error signal — a cancelled
(non-success, non-failure) outcome with the formatting already performed and
not rolled back. -/
theorem cancel_after_format_skips_deploy_and_boot (env : WkEnv) (isos : List String)
    (boot_type : String)
    (hreq : env.sysReq = .ok ())
    (hwin : env.anyWindowsImage = false)
    (hfmt : env.formatRun = .ok ())
    (hver : ∀ j, env.verify j = true)
    (hc0 : ∀ k, k ≤ isos.length → env.cancelled k = false)
    (hc1 : ∀ k, isos.length + 1 ≤ k → env.cancelled k = true) :
    WkEv.formatDrive ∈ usb_worker_run env isos false boot_type ∧
    (∀ i, WkEv.copyIso i ∉ usb_worker_run env isos false boot_type) ∧
    WkEv.installBoot ∉ usb_worker_run env isos false boot_type ∧
    WkEv.emitCompleted ∉ usb_worker_run env isos false boot_type ∧
    ∀ m, WkEv.emitError m ∉ usb_worker_run env isos false boot_type := by
  obtain ⟨ext, hveq, hben⟩ :=
    worker_verify_isos_spec env hver isos isos.length 0 0 [WkEv.progressStep]
      (fun k' hk' => hc0 k' (by omega))
  have h1 : env.cancelled (0 + isos.length) = false := hc0 _ (by omega)
  have h2 : env.cancelled (0 + isos.length + 1) = true := hc1 _ (by omega)
  have h3 : env.cancelled (0 + isos.length + 1 + 1) = true := hc1 _ (by omega)
  have hrun : usb_worker_run env isos false boot_type
      = ([WkEv.progressStep] ++ ext) ++
        (WkEv.status "Checking image type..." ::
          [WkEv.status "Formatting drive...", WkEv.formatDrive, WkEv.progressStep]) := by
    simp only [usb_worker_run, hreq, Bool.false_eq_true, if_false, hveq,
      create_bootable_usb, create_linux_bootable, hwin, hfmt]
    simp only [Nat.zero_add] at h1 h2 h3 ⊢
    simp [h1, h2, h3]
  refine ⟨?_, ?_, ?_, ?_, ?_⟩
  · rw [hrun]; simp
  · intro i
    rw [hrun]
    intro h
    rcases List.mem_append.mp h with h | h
    · rcases List.mem_append.mp h with h | h
      · simp at h
      · have := hben _ h
        simp [WkEv.isStageAction] at this
    · simp at h
  · rw [hrun]
    intro h
    rcases List.mem_append.mp h with h | h
    · rcases List.mem_append.mp h with h | h
      · simp at h
      · have := hben _ h
        simp [WkEv.isStageAction] at this
    · simp at h
  · rw [hrun]
    intro h
    rcases List.mem_append.mp h with h | h
    · rcases List.mem_append.mp h with h | h
      · simp at h
      · have := hben _ h
        simp [WkEv.isStageAction] at this
    · simp at h
  · intro m
    rw [hrun]
    intro h
    rcases List.mem_append.mp h with h | h
    · rcases List.mem_append.mp h with h | h
      · simp at h
      · have := hben _ h
        simp [WkEv.isStageAction] at this
    · simp at h

/-- Witness for C8: one ISO, a flag that becomes set exactly after the
post-formatting boundary (reads 0 and 1 clear, reads 2 and later set). -/
theorem cancel_after_format_skips_deploy_and_boot_witness :
    WkEv.formatDrive ∈ usb_worker_run { cancelled := fun k => decide (2 ≤ k) } ["a.iso"]
      false "UEFI" ∧
    (∀ i, WkEv.copyIso i ∉ usb_worker_run { cancelled := fun k => decide (2 ≤ k) } ["a.iso"]
      false "UEFI") ∧
    WkEv.installBoot ∉ usb_worker_run { cancelled := fun k => decide (2 ≤ k) } ["a.iso"]
      false "UEFI" ∧
    WkEv.emitCompleted ∉ usb_worker_run { cancelled := fun k => decide (2 ≤ k) } ["a.iso"]
      false "UEFI" ∧
    ∀ m, WkEv.emitError m ∉ usb_worker_run { cancelled := fun k => decide (2 ≤ k) } ["a.iso"]
      false "UEFI" :=
  cancel_after_format_skips_deploy_and_boot { cancelled := fun k => decide (2 ≤ k) }
    ["a.iso"] "UEFI" rfl rfl rfl (fun _ => rfl)
    (by intro k hk; simp only [List.length_cons, List.length_nil] at hk; simp; omega)
    (by intro k hk; simp only [List.length_cons, List.length_nil] at hk; simp; omega)
